import Mathlib

/-!
Shallow embedding of the `Configuration` validation component of the
repository (`src/config.py`), together with the pieces of its external
collaborators that the component observes:

* `urllib.parse.urlparse` — modelled by `urlparse` below (scheme and
  network-location extraction, which is all `config.py` reads, plus the
  `ValueError` raised on a mismatched IPv6 bracket in the netloc);
* `os.path.exists` / `os.path.isfile` — modelled by an abstract
  `FileSystem` record of two boolean predicates on path strings;
* the error classes of the repository's `errors.py` (not present under
  `src/`) — modelled from the spec's error taxonomy.

Python's dynamically typed inputs are modelled by `PyVal`, covering the
string case and representative non-string cases, with Python truthiness.
-/

/-- Subset of Python values relevant to the validator's inputs: strings,
integers and None.  Non-string inputs only matter through their truthiness
and through `isinstance(_, str)`. -/
inductive PyVal where
  | str (s : String)
  | int (n : Int)
  | none
deriving Repr, DecidableEq

/-- Python truthiness (`bool(v)`) for the modelled values: a string is truthy
iff non-empty, an integer iff non-zero, `None` is falsy. -/
def PyVal.truthy : PyVal → Bool
  | .str s => s ≠ ""
  | .int n => n ≠ 0
  | .none => false

/-- Python `isinstance(v, str)`. -/
def PyVal.isStr : PyVal → Bool
  | .str _ => true
  | _ => false

/-- Modelled from the spec: the error taxonomy of the repository's
`errors.py` module, whose source is not included under `src/`.  The three
specific errors (`PackageNameError`, `RepositoryError`, `TestModeError`)
are distinct exception kinds, each carrying a message string, and none of
them is a `ValueError` (so the `except ValueError` clause in
`_validate_repository` does not catch them). -/
inductive SpecificError where
  | packageNameError (msg : String)
  | repositoryError (msg : String)
  | testModeError (msg : String)
deriving Repr, DecidableEq

/-- Message carried by a specific error (`str(e)` in Python). -/
def SpecificError.message : SpecificError → String
  | .packageNameError m => m
  | .repositoryError m => m
  | .testModeError m => m

/-- Modelled from the spec: the umbrella `ValidationError` of `errors.py`,
carrying a message string. -/
structure ValidationError where
  message : String
deriving Repr, DecidableEq

/-- Abstract read-only view of the local filesystem: `os.path.exists` and
`os.path.isfile` as boolean predicates on path strings. -/
structure FileSystem where
  path_exists : String → Bool
  path_isfile : String → Bool

/-! ## Model of `urllib.parse.urlparse` (scheme / netloc extraction)

`config.py` reads only `result.scheme` and `result.netloc`.  The model
follows CPython's `urlsplit`: strip leading/trailing C0-control-or-space
characters, remove all tab/CR/LF characters, split off a scheme (first
`:` with a letter-initial prefix of scheme characters, lowercased), and
when the remainder starts with `//` take the netloc up to the first of
`/ ? #`, raising `ValueError` on a mismatched `[`/`]` in the netloc.
Query/fragment splitting and the NFKC netloc check are not modelled:
`config.py` never observes them. -/

/-- Components of a parsed URL that the validator observes. -/
structure ParseResult where
  scheme : String
  netloc : String
  rest : String
deriving Repr, DecidableEq

/-- Characters allowed in a URL scheme after the first (Python
`scheme_chars`): ASCII letters, digits, `+`, `-`, `.`. -/
def schemeChar (c : Char) : Bool :=
  c.isAlpha || c.isDigit || c == '+' || c == '-' || c == '.'

/-- WHATWG C0-control-or-space predicate (U+0000 to U+0020). -/
def c0ControlOrSpace (c : Char) : Bool :=
  c.toNat ≤ 0x20

/-- Strip leading and trailing C0-control-or-space characters
(Python `url.strip(_WHATWG_C0_CONTROL_OR_SPACE)`). -/
def stripC0 (l : List Char) : List Char :=
  ((l.dropWhile c0ControlOrSpace).reverse.dropWhile c0ControlOrSpace).reverse

/-- Remove every ASCII tab, CR and LF character
(Python `_UNSAFE_URL_BYTES_TO_REMOVE`). -/
def removeUnsafeChars (l : List Char) : List Char :=
  l.filter (fun c => !(c == '\t' || c == '\r' || c == '\n'))

/-- Split off the scheme: if the first `:` occurs at a positive index and
everything before it is scheme characters starting with a letter, the
scheme is that prefix lowercased and the remainder follows the `:`;
otherwise the scheme is empty and the input is left intact. -/
def splitScheme (l : List Char) : List Char × List Char :=
  match l.findIdx? (· == ':') with
  | Option.none => ([], l)
  | Option.some i =>
    if i == 0 then ([], l)
    else
      let pre := l.take i
      match pre.head? with
      | Option.none => ([], l)
      | Option.some c0 =>
        if c0.isAlpha && pre.all schemeChar then
          (pre.map Char.toLower, l.drop (i + 1))
        else ([], l)

/-- Delimiter ending the netloc (`/`, `?` or `#`). -/
def netlocDelim (c : Char) : Bool :=
  c == '/' || c == '?' || c == '#'

/-- Model of `urllib.parse.urlparse` restricted to the components the
validator reads; `Except.error` models a raised `ValueError`. -/
def urlparse (url : String) : Except String ParseResult :=
  let l := removeUnsafeChars (stripC0 url.toList)
  let p := splitScheme l
  match p.2 with
  | '/' :: '/' :: afterSlashes =>
    let netloc := afterSlashes.takeWhile (fun c => !netlocDelim c)
    let rest := afterSlashes.dropWhile (fun c => !netlocDelim c)
    if (netloc.contains '[' && !netloc.contains ']') ||
       (netloc.contains ']' && !netloc.contains '[') then
      Except.error "Invalid IPv6 URL"
    else
      Except.ok ⟨⟨p.1⟩, ⟨netloc⟩, ⟨rest⟩⟩
  | other => Except.ok ⟨⟨p.1⟩, "", ⟨other⟩⟩

/-! ## The validators of `config.py` -/

/-- Characters admitted by the package-name character class
`[a-zA-Z0-9_\-\.]`. -/
def isAllowedPkgChar (c : Char) : Bool :=
  c.isAlpha || c.isDigit || c == '_' || c == '-' || c == '.'

/-- Python `re.match(r'^[a-zA-Z0-9_\-\.]+$', s)` as a boolean: one or more
allowed characters, then the end of the string — where `$` also matches
just before a single newline that ends the string. -/
def pkgNameRegexMatch (s : String) : Bool :=
  let core := s.toList.takeWhile isAllowedPkgChar
  let rest := s.toList.dropWhile isAllowedPkgChar
  core ≠ [] && (rest = [] || rest = ['\n'])

/-- Embedding of `Configuration._validate_package_name`: empty/falsy check,
`isinstance(_, str)` check, character-class regex, then the 100-character
length bound. -/
def validate_package_name (package_name : PyVal) : Except SpecificError Unit :=
  if package_name.truthy = false then
    Except.error (SpecificError.packageNameError "Имя пакета не может быть пустым")
  else
    match package_name with
    | .str s =>
      if pkgNameRegexMatch s = false then
        Except.error (SpecificError.packageNameError
          ("Недопустимое имя пакета: " ++ s ++
           ". Допустимы только буквы, цифры, точки, дефисы и подчеркивания"))
      else if 100 < s.length then
        Except.error (SpecificError.packageNameError
          "Имя пакета слишком длинное (максимум 100 символов)")
      else Except.ok ()
    | _ =>
      Except.error (SpecificError.packageNameError "Имя пакета должно быть строкой")

/-- URL-classification of a parse result:
`self.is_url = all([result.scheme, result.netloc])`. -/
def classify_is_url (r : ParseResult) : Bool :=
  r.scheme ≠ "" && r.netloc ≠ ""

/-- Schemes admitted for URL-classified repositories. -/
def allowedSchemes : List String := ["http", "https", "ftp", "file"]

/-- URL branch of `_validate_repository`: the scheme must belong to
`allowedSchemes`; on success the derived `is_url` flag is `true`. -/
def validate_url_scheme (r : ParseResult) : Except SpecificError Bool :=
  if allowedSchemes.contains r.scheme = false then
    Except.error (SpecificError.repositoryError
      ("Недопустимая схема URL: " ++ r.scheme ++ ". Допустимы: http, https, ftp, file"))
  else Except.ok true

/-- Path branch of `_validate_repository`: the string must name an existing
path that is a regular file; on success the derived `is_url` flag is
`false`. -/
def validate_path (fs : FileSystem) (s : String) : Except SpecificError Bool :=
  if fs.path_exists s = false then
    Except.error (SpecificError.repositoryError ("Файл не существует: " ++ s))
  else if fs.path_isfile s = false then
    Except.error (SpecificError.repositoryError ("Указанный путь не является файлом: " ++ s))
  else Except.ok false

/-- Embedding of `Configuration._validate_repository`.  Returns the derived
`is_url` flag on success.  A `ValueError` from `urlparse` is rewrapped as a
format `RepositoryError` by the `except ValueError` clause. -/
def validate_repository (fs : FileSystem) (repository : PyVal) :
    Except SpecificError Bool :=
  if repository.truthy = false then
    Except.error (SpecificError.repositoryError "Репозиторий не может быть пустым")
  else
    match repository with
    | .str s =>
      match urlparse s with
      | .error e =>
        Except.error (SpecificError.repositoryError
          ("Некорректный формат репозитория: " ++ e))
      | .ok r =>
        if classify_is_url r then validate_url_scheme r
        else validate_path fs s
    | _ =>
      Except.error (SpecificError.repositoryError "Репозиторий должен быть указан строкой")

/-- Python `str.lower()` on the characters of a string, modelled
character-wise (ASCII case mapping, which is all the on/off check can
observe). -/
def strLower (s : String) : String :=
  ⟨s.toList.map Char.toLower⟩

/-- Modes admitted by `_validate_test_repo_mode`. -/
def valid_modes : List String := ["on", "off"]

/-- Embedding of `Configuration._validate_test_repo_mode`: the value must be
a string whose lowercasing is `on` or `off`; the lowercased form is the
stored value, returned on success. -/
def validate_test_repo_mode (test_repo_mode : PyVal) : Except SpecificError String :=
  match test_repo_mode with
  | .str s =>
    if valid_modes.contains (strLower s) = false then
      Except.error (SpecificError.testModeError
        ("Недопустимый режим работы: " ++ s ++ ". Допустимые значения: on, off"))
    else Except.ok (strLower s)
  | _ => Except.error (SpecificError.testModeError "Режим работы должен быть строкой")

/-- Embedding of `Configuration._validate_all` without the rewrapping:
runs the three checks in order, propagating the first specific error; on
success returns the derived `is_url` flag and the normalized mode. -/
def validate_all (fs : FileSystem) (package_name repository test_repo_mode : PyVal) :
    Except SpecificError (Bool × String) :=
  match validate_package_name package_name with
  | .error e => Except.error e
  | .ok _ =>
    match validate_repository fs repository with
    | .error e => Except.error e
    | .ok is_url =>
      match validate_test_repo_mode test_repo_mode with
      | .error e => Except.error e
      | .ok m => Except.ok (is_url, m)

/-- Prefix the wrapping `ValidationError` message adds to the specific
error's message in `_validate_all`. -/
def wrapValidation (e : SpecificError) : ValidationError :=
  ⟨"Ошибка валидации конфигурации: " ++ e.message⟩

/-- The validated configuration object: the attributes of a `Configuration`
instance after `__init__` returns. -/
structure Configuration where
  package_name : PyVal
  repository : PyVal
  test_repo_mode : PyVal
  is_url : Bool
deriving Repr, DecidableEq

/-- Embedding of `Configuration.__init__`: stores the raw attributes, runs
`_validate_all`, which rewraps any specific error into a `ValidationError`;
on success `test_repo_mode` holds the normalized mode and `is_url` the
derived flag. -/
def Configuration.init (fs : FileSystem)
    (package_name repository test_repo_mode : PyVal) :
    Except ValidationError Configuration :=
  match validate_all fs package_name repository test_repo_mode with
  | .error e => Except.error (wrapValidation e)
  | .ok (is_url, mode) => Except.ok ⟨package_name, repository, .str mode, is_url⟩

/-- Embedding of `Configuration.to_dict`: the summary record, as an ordered
association list. -/
def Configuration.to_dict (c : Configuration) : List (String × PyVal) :=
  [("package_name", c.package_name),
   ("repository", c.repository),
   ("test_repo_mode", c.test_repo_mode),
   ("repository_type", .str (if c.is_url then "URL" else "файл"))]

/-! ## Concrete filesystems used by witnesses and counterexamples -/

/-- Filesystem on which no path exists. -/
def emptyFS : FileSystem :=
  ⟨fun _ => false, fun _ => false⟩

/-- Filesystem with a single regular file `/tmp/data.txt` and a single
directory `/tmp/dir`. -/
def demoFS : FileSystem :=
  ⟨fun p => p == "/tmp/data.txt" || p == "/tmp/dir",
   fun p => p == "/tmp/data.txt"⟩

/-- Definition following the spec's words for the amended package-name
claim: one or more characters of the allowed class, optionally followed by
a single trailing newline. -/
def pkgNameSpecMatch (s : String) : Prop :=
  ∃ t u, s.toList = t ++ u ∧ t ≠ [] ∧ t.all isAllowedPkgChar = true ∧
    (u = [] ∨ u = ['\n'])

lemma contains_valid_modes (x : String) :
    valid_modes.contains x = true ↔ (x = "on" ∨ x = "off") := by
  simp [valid_modes]

lemma contains_allowedSchemes (x : String) :
    allowedSchemes.contains x = true ↔ x ∈ allowedSchemes := by
  simp

lemma ne_empty_iff_toList (s : String) : s ≠ "" ↔ s.toList ≠ [] := by
  cases s with
  | mk d =>
    cases d with
    | nil => exact ⟨fun h => absurd rfl h, fun h => absurd rfl h⟩
    | cons a l =>
      constructor
      · intro _ hl
        exact List.cons_ne_nil a l hl
      · intro _ hl
        exact List.cons_ne_nil a l (String.ext_iff.mp hl)

lemma truthy_str (s : String) (hs : s ≠ "") : PyVal.truthy (.str s) = true := by
  simp [PyVal.truthy, hs]

lemma validate_repository_str (fs : FileSystem) (s : String) (hs : s ≠ "") :
    validate_repository fs (.str s) =
      match urlparse s with
      | .error e =>
        Except.error (SpecificError.repositoryError
          ("Некорректный формат репозитория: " ++ e))
      | .ok r => if classify_is_url r then validate_url_scheme r else validate_path fs s := by
  simp [validate_repository, PyVal.truthy, hs]

lemma validate_repository_parse_ok (fs : FileSystem) (s : String) (r : ParseResult)
    (hs : s ≠ "") (hu : urlparse s = .ok r) :
    validate_repository fs (.str s) =
      if classify_is_url r then validate_url_scheme r else validate_path fs s := by
  rw [validate_repository_str fs s hs, hu]

lemma validate_repository_parse_err (fs : FileSystem) (s : String) (e : String)
    (hs : s ≠ "") (hu : urlparse s = .error e) :
    validate_repository fs (.str s) =
      Except.error (SpecificError.repositoryError
        ("Некорректный формат репозитория: " ++ e)) := by
  rw [validate_repository_str fs s hs, hu]

lemma validate_url_scheme_ok_iff (r : ParseResult) :
    validate_url_scheme r = .ok true ↔ r.scheme ∈ allowedSchemes := by
  unfold validate_url_scheme
  cases hc : allowedSchemes.contains r.scheme <;> simp_all

lemma validate_url_scheme_bad (r : ParseResult) (h : r.scheme ∉ allowedSchemes) :
    validate_url_scheme r = .error (SpecificError.repositoryError
      ("Недопустимая схема URL: " ++ r.scheme ++ ". Допустимы: http, https, ftp, file")) := by
  have hc : allowedSchemes.contains r.scheme = false := by
    cases hc2 : allowedSchemes.contains r.scheme
    · rfl
    · exact absurd ((contains_allowedSchemes _).mp hc2) h
  unfold validate_url_scheme
  rw [if_pos hc]

lemma validate_path_ok_iff (fs : FileSystem) (s : String) :
    validate_path fs s = .ok false ↔ (fs.path_exists s = true ∧ fs.path_isfile s = true) := by
  unfold validate_path
  cases he : fs.path_exists s <;> cases hf : fs.path_isfile s <;> simp

lemma validate_path_ok_inv (fs : FileSystem) (s : String) (b : Bool)
    (h : validate_path fs s = .ok b) :
    b = false ∧ fs.path_exists s = true ∧ fs.path_isfile s = true := by
  unfold validate_path at h
  cases he : fs.path_exists s <;> cases hf : fs.path_isfile s <;> simp_all

lemma validate_url_scheme_ok_inv (r : ParseResult) (b : Bool)
    (h : validate_url_scheme r = .ok b) : b = true := by
  unfold validate_url_scheme at h
  cases hc : allowedSchemes.contains r.scheme <;> simp_all

lemma validate_repository_empty (fs : FileSystem) :
    validate_repository fs (.str "") =
      Except.error (SpecificError.repositoryError "Репозиторий не может быть пустым") := rfl

lemma validate_repository_ok_inv (fs : FileSystem) (s : String) (b : Bool)
    (h : validate_repository fs (.str s) = .ok b) :
    ∃ r, urlparse s = .ok r ∧ b = classify_is_url r := by
  by_cases hs : s = ""
  · subst hs
    rw [validate_repository_empty] at h
    exact absurd h (by simp)
  · cases hu : urlparse s with
    | error e =>
      rw [validate_repository_parse_err fs s e hs hu] at h
      exact absurd h (by simp)
    | ok r =>
      rw [validate_repository_parse_ok fs s r hs hu] at h
      refine ⟨r, rfl, ?_⟩
      by_cases hc : classify_is_url r
      · rw [if_pos hc] at h
        rw [validate_url_scheme_ok_inv r b h, hc]
      · rw [if_neg hc] at h
        rw [(validate_path_ok_inv fs s b h).1]
        simp_all

lemma validate_test_repo_mode_str_eq (s : String) :
    validate_test_repo_mode (.str s) =
      if valid_modes.contains (strLower s) = false then
        Except.error (SpecificError.testModeError
          ("Недопустимый режим работы: " ++ s ++ ". Допустимые значения: on, off"))
      else Except.ok (strLower s) := rfl

lemma validate_test_repo_mode_str_ok (s : String)
    (h : (strLower s) = "on" ∨ (strLower s) = "off") :
    validate_test_repo_mode (.str s) = .ok (strLower s) := by
  have hc : valid_modes.contains (strLower s) = true := (contains_valid_modes _).mpr h
  rw [validate_test_repo_mode_str_eq, if_neg (by rw [hc]; simp)]

lemma validate_test_repo_mode_str_bad (s : String)
    (h : ¬((strLower s) = "on" ∨ (strLower s) = "off")) :
    validate_test_repo_mode (.str s) = .error (SpecificError.testModeError
      ("Недопустимый режим работы: " ++ s ++ ". Допустимые значения: on, off")) := by
  have hc : valid_modes.contains (strLower s) = false := by
    cases hc2 : valid_modes.contains (strLower s)
    · rfl
    · exact absurd ((contains_valid_modes _).mp hc2) h
  rw [validate_test_repo_mode_str_eq, if_pos hc]

lemma validate_test_repo_mode_str_ok_inv (s m : String)
    (h : validate_test_repo_mode (.str s) = .ok m) :
    m = (strLower s) ∧ ((strLower s) = "on" ∨ (strLower s) = "off") := by
  by_cases hv : (strLower s) = "on" ∨ (strLower s) = "off"
  · rw [validate_test_repo_mode_str_ok s hv] at h
    injection h with h2
    exact ⟨h2.symm, hv⟩
  · rw [validate_test_repo_mode_str_bad s hv] at h
    exact absurd h (by simp)

lemma init_pkg_error (fs : FileSystem) (pn repo mode : PyVal) (e : SpecificError)
    (h : validate_package_name pn = .error e) :
    Configuration.init fs pn repo mode = .error (wrapValidation e) := by
  simp [Configuration.init, validate_all, h]

lemma init_repo_error (fs : FileSystem) (pn repo mode : PyVal) (e : SpecificError)
    (hp : validate_package_name pn = .ok ())
    (h : validate_repository fs repo = .error e) :
    Configuration.init fs pn repo mode = .error (wrapValidation e) := by
  simp [Configuration.init, validate_all, hp, h]

lemma init_mode_error (fs : FileSystem) (pn repo mode : PyVal) (e : SpecificError) (b : Bool)
    (hp : validate_package_name pn = .ok ())
    (hr : validate_repository fs repo = .ok b)
    (h : validate_test_repo_mode mode = .error e) :
    Configuration.init fs pn repo mode = .error (wrapValidation e) := by
  simp [Configuration.init, validate_all, hp, hr, h]

lemma init_ok (fs : FileSystem) (pn repo mode : PyVal) (b : Bool) (m : String)
    (hp : validate_package_name pn = .ok ())
    (hr : validate_repository fs repo = .ok b)
    (hm : validate_test_repo_mode mode = .ok m) :
    Configuration.init fs pn repo mode = .ok ⟨pn, repo, .str m, b⟩ := by
  simp [Configuration.init, validate_all, hp, hr, hm]

lemma init_ok_inv (fs : FileSystem) (pn repo mode : PyVal) (c : Configuration)
    (h : Configuration.init fs pn repo mode = .ok c) :
    ∃ b m, validate_package_name pn = .ok () ∧ validate_repository fs repo = .ok b ∧
      validate_test_repo_mode mode = .ok m ∧ c = ⟨pn, repo, .str m, b⟩ := by
  cases hp : validate_package_name pn with
  | error e =>
    rw [init_pkg_error fs pn repo mode e hp] at h
    exact absurd h (by simp)
  | ok u =>
    cases u
    cases hr : validate_repository fs repo with
    | error e =>
      rw [init_repo_error fs pn repo mode e hp hr] at h
      exact absurd h (by simp)
    | ok b =>
      cases hm : validate_test_repo_mode mode with
      | error e =>
        rw [init_mode_error fs pn repo mode e b hp hr hm] at h
        exact absurd h (by simp)
      | ok m =>
        rw [init_ok fs pn repo mode b m hp hr hm] at h
        injection h with h2
        exact ⟨b, m, rfl, rfl, rfl, h2.symm⟩

lemma init_error_inv (fs : FileSystem) (pn repo mode : PyVal) (v : ValidationError)
    (h : Configuration.init fs pn repo mode = .error v) :
    ∃ e, validate_all fs pn repo mode = .error e ∧ v = wrapValidation e := by
  cases ha : validate_all fs pn repo mode with
  | error e =>
    unfold Configuration.init at h
    rw [ha] at h
    injection h with h2
    exact ⟨e, rfl, h2.symm⟩
  | ok p =>
    unfold Configuration.init at h
    rw [ha] at h
    cases p with
    | mk b m => exact absurd h (by simp)

lemma urlparse_empty : urlparse "" = .ok ⟨"", "", ""⟩ := rfl

lemma takeWhile_dropWhile_of_all (p : Char → Bool) (u : List Char)
    (hu : u.takeWhile p = []) :
    ∀ t : List Char, t.all p = true →
      ((t ++ u).takeWhile p = t ∧ (t ++ u).dropWhile p = u) := by
  intro t
  induction t with
  | nil =>
    intro _
    refine ⟨hu, ?_⟩
    cases u with
    | nil => rfl
    | cons c u' =>
      have hc : p c = false := by
        by_cases hpc : p c = true
        · rw [List.takeWhile_cons_of_pos hpc] at hu
          exact absurd hu (by simp)
        · simpa using hpc
      simp [List.dropWhile_cons, hc]
  | cons c t' ih =>
    intro hall
    have hsplit : p c = true ∧ t'.all p = true := by simpa [List.all_cons] using hall
    rcases ih hsplit.2 with ⟨h1, h2⟩
    constructor
    · rw [List.cons_append, List.takeWhile_cons_of_pos hsplit.1, h1]
    · rw [List.cons_append, List.dropWhile_cons_of_pos hsplit.1, h2]

lemma pkgNameRegexMatch_iff (s : String) :
    pkgNameRegexMatch s = true ↔ pkgNameSpecMatch s := by
  unfold pkgNameRegexMatch pkgNameSpecMatch
  constructor
  · intro h
    have h' := h
    simp only [Bool.and_eq_true, Bool.or_eq_true, decide_eq_true_eq] at h'
    refine ⟨s.toList.takeWhile isAllowedPkgChar, s.toList.dropWhile isAllowedPkgChar,
      (List.takeWhile_append_dropWhile _ _).symm, h'.1, ?_, h'.2⟩
    exact List.all_eq_true.mpr fun a ha => List.mem_takeWhile_imp ha
  · rintro ⟨t, u, heq, ht, hall, hu⟩
    have hu' : u.takeWhile isAllowedPkgChar = [] := by
      rcases hu with h | h <;> subst h
      · rfl
      · decide
    rcases takeWhile_dropWhile_of_all isAllowedPkgChar u hu' t hall with ⟨h1, h2⟩
    rw [heq, h1, h2]
    rcases hu with h | h <;> subst h <;> simp [ht]

lemma validate_package_name_str_eq (s : String) (hs : s ≠ "") :
    validate_package_name (.str s) =
      if pkgNameRegexMatch s = false then
        Except.error (SpecificError.packageNameError
          ("Недопустимое имя пакета: " ++ s ++
           ". Допустимы только буквы, цифры, точки, дефисы и подчеркивания"))
      else if 100 < s.length then
        Except.error (SpecificError.packageNameError
          "Имя пакета слишком длинное (максимум 100 символов)")
      else Except.ok () := by
  have ht : PyVal.truthy (.str s) = true := truthy_str s hs
  simp [validate_package_name, ht]

lemma validate_package_name_str_ok_iff (s : String) :
    validate_package_name (.str s) = .ok () ↔
      (s ≠ "" ∧ pkgNameRegexMatch s = true ∧ s.length ≤ 100) := by
  by_cases hs : s = ""
  · subst hs
    constructor
    · intro h; exact absurd h (by simp [validate_package_name, PyVal.truthy])
    · rintro ⟨h, _⟩; exact absurd rfl h
  · rw [validate_package_name_str_eq s hs]
    by_cases hr : pkgNameRegexMatch s = false
    · rw [if_pos hr]
      constructor
      · intro h; exact absurd h (by simp)
      · rintro ⟨_, hr2, _⟩; rw [hr] at hr2; exact absurd hr2 (by simp)
    · rw [if_neg hr]
      by_cases hl : 100 < s.length
      · rw [if_pos hl]
        constructor
        · intro h; exact absurd h (by simp)
        · rintro ⟨_, _, hl2⟩; omega
      · rw [if_neg hl]
        have hr' : pkgNameRegexMatch s = true := by
          cases h2 : pkgNameRegexMatch s
          · exact absurd h2 hr
          · rfl
        exact ⟨fun _ => ⟨hs, hr', by omega⟩, fun _ => rfl⟩

/-- C1: for every non-empty repository string whose parse succeeds, the
derived flag is true iff both the scheme and the network location are
non-empty; a string classified as not a URL — in particular
"file:///tmp/x", whose network location is empty — falls through to the
filesystem-path validation. -/
theorem c1_url_classification :
    (∀ (s : String) (r : ParseResult), s ≠ "" → urlparse s = .ok r →
      (classify_is_url r = true ↔ (r.scheme ≠ "" ∧ r.netloc ≠ "")) ∧
      (∀ (fs : FileSystem) (b : Bool),
        validate_repository fs (.str s) = .ok b → b = classify_is_url r) ∧
      (classify_is_url r = false →
        ∀ fs : FileSystem, validate_repository fs (.str s) = validate_path fs s)) ∧
    (urlparse "file:///tmp/x" = .ok ⟨"file", "", "/tmp/x"⟩ ∧
      ∀ fs : FileSystem,
        validate_repository fs (.str "file:///tmp/x") = validate_path fs "file:///tmp/x") := by
  constructor
  · intro s r hs hu
    refine ⟨by simp [classify_is_url], ?_, ?_⟩
    · intro fs b hb
      rcases validate_repository_ok_inv fs s b hb with ⟨r2, hur2, hbr⟩
      have : r2 = r := by
        have h12 := hur2.symm.trans hu
        injection h12
      rw [hbr, this]
    · intro hcf fs
      rw [validate_repository_parse_ok fs s r hs hu, if_neg (by rw [hcf]; simp)]
  · refine ⟨rfl, fun fs => ?_⟩
    rw [validate_repository_parse_ok fs "file:///tmp/x" ⟨"file", "", "/tmp/x"⟩ (by decide) rfl,
      if_neg (by decide)]

/-- Witness for C1 at concrete inputs. -/
theorem c1_witness :
    classify_is_url ⟨"https", "example.com", "/repo"⟩ = true ∧
    validate_repository demoFS (.str "file:///tmp/x") = validate_path demoFS "file:///tmp/x" := by
  constructor
  · exact ((c1_url_classification.1 "https://example.com/repo"
      ⟨"https", "example.com", "/repo"⟩ (by decide) rfl).1).mpr (by decide)
  · exact c1_url_classification.2.2 demoFS

/-- C2: a URL-classified repository (non-empty scheme and netloc) validates
successfully iff its scheme is one of http, https, ftp, file; any other
scheme fails with a RepositoryError. -/
theorem c2_url_scheme_whitelist :
    ∀ (fs : FileSystem) (s : String) (r : ParseResult),
      urlparse s = .ok r → r.scheme ≠ "" → r.netloc ≠ "" →
      ((validate_repository fs (.str s) = .ok true ↔ r.scheme ∈ allowedSchemes) ∧
       (r.scheme ∉ allowedSchemes →
         validate_repository fs (.str s) = .error (SpecificError.repositoryError
           ("Недопустимая схема URL: " ++ r.scheme ++ ". Допустимы: http, https, ftp, file")))) := by
  intro fs s r hu hsch hnet
  have hs : s ≠ "" := by
    intro hse
    subst hse
    rw [urlparse_empty] at hu
    injection hu with h2
    rw [← h2] at hsch
    exact hsch rfl
  have hcl : classify_is_url r = true := by simp [classify_is_url, hsch, hnet]
  have hrw := validate_repository_parse_ok fs s r hs hu
  rw [if_pos hcl] at hrw
  constructor
  · rw [hrw]; exact validate_url_scheme_ok_iff r
  · intro hnot; rw [hrw]; exact validate_url_scheme_bad r hnot

/-- Witness for C2: "ftp://example.com/pkg" succeeds, "gopher://example.com"
fails with the invalid-scheme RepositoryError. -/
theorem c2_witness :
    validate_repository emptyFS (.str "ftp://example.com/pkg") = .ok true ∧
    validate_repository emptyFS (.str "gopher://example.com") =
      .error (SpecificError.repositoryError
        "Недопустимая схема URL: gopher. Допустимы: http, https, ftp, file") := by
  constructor
  · exact ((c2_url_scheme_whitelist emptyFS "ftp://example.com/pkg"
      ⟨"ftp", "example.com", "/pkg"⟩ rfl (by decide) (by decide)).1).mpr (by decide)
  · exact (c2_url_scheme_whitelist emptyFS "gopher://example.com"
      ⟨"gopher", "example.com", ""⟩ rfl (by decide) (by decide)).2 (by decide)

/-- C3: a non-empty repository string not classified as a URL validates
successfully iff the path exists and is a regular file; a nonexistent path
and an existing non-file each fail with their RepositoryError. -/
theorem c3_path_validation :
    ∀ (fs : FileSystem) (s : String) (r : ParseResult),
      s ≠ "" → urlparse s = .ok r → classify_is_url r = false →
      ((validate_repository fs (.str s) = .ok false ↔
          (fs.path_exists s = true ∧ fs.path_isfile s = true)) ∧
       (fs.path_exists s = false →
         validate_repository fs (.str s) = .error (SpecificError.repositoryError
           ("Файл не существует: " ++ s))) ∧
       (fs.path_exists s = true → fs.path_isfile s = false →
         validate_repository fs (.str s) = .error (SpecificError.repositoryError
           ("Указанный путь не является файлом: " ++ s)))) := by
  intro fs s r hs hu hcl
  have hrw := validate_repository_parse_ok fs s r hs hu
  rw [if_neg (by rw [hcl]; simp)] at hrw
  refine ⟨by rw [hrw]; exact validate_path_ok_iff fs s, fun he => ?_, fun he hf => ?_⟩
  · rw [hrw]
    unfold validate_path
    rw [if_pos he]
  · rw [hrw]
    unfold validate_path
    rw [if_neg (by rw [he]; simp), if_pos hf]

/-- Witness for C3 on a concrete filesystem: an existing regular file
succeeds, a nonexistent path fails, a directory fails. -/
theorem c3_witness :
    validate_repository demoFS (.str "/tmp/data.txt") = .ok false ∧
    validate_repository demoFS (.str "/nonexistent/path.txt") =
      .error (SpecificError.repositoryError "Файл не существует: /nonexistent/path.txt") ∧
    validate_repository demoFS (.str "/tmp/dir") =
      .error (SpecificError.repositoryError "Указанный путь не является файлом: /tmp/dir") := by
  refine ⟨?_, ?_, ?_⟩
  · exact ((c3_path_validation demoFS "/tmp/data.txt" ⟨"", "", "/tmp/data.txt"⟩
      (by decide) rfl (by decide)).1).mpr (by decide)
  · exact (c3_path_validation demoFS "/nonexistent/path.txt"
      ⟨"", "", "/nonexistent/path.txt"⟩ (by decide) rfl (by decide)).2.1 (by decide)
  · exact (c3_path_validation demoFS "/tmp/dir" ⟨"", "", "/tmp/dir"⟩
      (by decide) rfl (by decide)).2.2 (by decide) (by decide)

/-- C4 (counterexample): the package name "a\n" contains a character outside
[a-zA-Z0-9_.-] yet validation succeeds, because Python's regex anchor $
also matches just before a single trailing newline. -/
theorem c4_counterexample :
    validate_package_name (.str "a\n") = .ok () ∧
    ("a\n".toList.all isAllowedPkgChar) = false := by
  exact ⟨rfl, rfl⟩

/-- C4 (amended): the package-name check succeeds iff the name consists of
one or more characters of [a-zA-Z0-9_.-], optionally followed by a single
trailing newline, and its length is at most 100; every failure is a
PackageNameError. -/
theorem c4_package_name_rules :
    ∀ s : String,
      (validate_package_name (.str s) = .ok () ↔
        (pkgNameSpecMatch s ∧ s.length ≤ 100)) ∧
      (validate_package_name (.str s) = .ok () ∨
        ∃ m, validate_package_name (.str s) = .error (SpecificError.packageNameError m)) := by
  intro s
  constructor
  · rw [validate_package_name_str_ok_iff]
    constructor
    · rintro ⟨_, hr, hl⟩
      exact ⟨(pkgNameRegexMatch_iff s).mp hr, hl⟩
    · rintro ⟨hm, hl⟩
      have hr := (pkgNameRegexMatch_iff s).mpr hm
      have hs : s ≠ "" := by
        rcases hm with ⟨t, u, heq, ht, _, _⟩
        rw [ne_empty_iff_toList, heq]
        intro hnil
        exact ht (List.append_eq_nil.mp hnil).1
      exact ⟨hs, hr, hl⟩
  · by_cases hs : s = ""
    · subst hs
      exact Or.inr ⟨"Имя пакета не может быть пустым", rfl⟩
    · rw [validate_package_name_str_eq s hs]
      by_cases hr : pkgNameRegexMatch s = false
      · rw [if_pos hr]
        exact Or.inr ⟨_, rfl⟩
      · rw [if_neg hr]
        by_cases hl : 100 < s.length
        · rw [if_pos hl]
          exact Or.inr ⟨_, rfl⟩
        · rw [if_neg hl]
          exact Or.inl rfl

/-- Witness for C4 (amended) at the valid name "my-pkg_1.0". -/
theorem c4_witness :
    validate_package_name (.str "my-pkg_1.0") = .ok () := by
  exact ((c4_package_name_rules "my-pkg_1.0").1).mpr
    ⟨⟨['m', 'y', '-', 'p', 'k', 'g', '_', '1', '.', '0'], [], rfl, by decide, by decide,
      Or.inl rfl⟩, by decide⟩

/-- C5: mode validation accepts exactly the strings whose lowercasing is
"on" or "off", stores the lowercased form, and rejects everything else with
a TestModeError. -/
theorem c5_mode_normalization :
    ∀ s : String,
      (∀ m : String, validate_test_repo_mode (.str s) = .ok m ↔
          (m = (strLower s) ∧ ((strLower s) = "on" ∨ (strLower s) = "off"))) ∧
      (¬((strLower s) = "on" ∨ (strLower s) = "off") →
        validate_test_repo_mode (.str s) = .error (SpecificError.testModeError
          ("Недопустимый режим работы: " ++ s ++ ". Допустимые значения: on, off"))) := by
  intro s
  refine ⟨fun m => ⟨fun h => validate_test_repo_mode_str_ok_inv s m h, fun h => ?_⟩,
    fun h => validate_test_repo_mode_str_bad s h⟩
  rcases h with ⟨hm, hv⟩
  rw [hm]
  exact validate_test_repo_mode_str_ok s hv

/-- Witness for C5: "ON", "On", "on" all store "on"; "maybe" fails. -/
theorem c5_witness :
    validate_test_repo_mode (.str "ON") = .ok "on" ∧
    validate_test_repo_mode (.str "On") = .ok "on" ∧
    validate_test_repo_mode (.str "on") = .ok "on" ∧
    validate_test_repo_mode (.str "maybe") = .error (SpecificError.testModeError
      "Недопустимый режим работы: maybe. Допустимые значения: on, off") := by
  refine ⟨?_, ?_, ?_, ?_⟩
  · exact ((c5_mode_normalization "ON").1 "on").mpr (by decide)
  · exact ((c5_mode_normalization "On").1 "on").mpr (by decide)
  · exact ((c5_mode_normalization "on").1 "on").mpr (by decide)
  · exact (c5_mode_normalization "maybe").2 (by decide)

/-- C6: every construction failure is a single ValidationError whose message
wraps the failing check's specific-error message; specific errors never
escape, and no Configuration is produced on failure. -/
theorem c6_error_wrapping :
    ∀ (fs : FileSystem) (pn repo mode : PyVal),
      (∀ v, Configuration.init fs pn repo mode = .error v →
        ∃ e, validate_all fs pn repo mode = .error e ∧
          v.message = "Ошибка валидации конфигурации: " ++ e.message) ∧
      (∀ e, validate_all fs pn repo mode = .error e →
        Configuration.init fs pn repo mode = .error (wrapValidation e)) ∧
      (∀ v, Configuration.init fs pn repo mode = .error v →
        ∀ c, Configuration.init fs pn repo mode ≠ .ok c) := by
  intro fs pn repo mode
  refine ⟨fun v hv => ?_, fun e he => ?_, fun v hv c hc => ?_⟩
  · rcases init_error_inv fs pn repo mode v hv with ⟨e, he, hveq⟩
    exact ⟨e, he, by subst hveq; rfl⟩
  · unfold Configuration.init
    rw [he]
  · rw [hv] at hc
    exact absurd hc (by simp)

/-- Witness for C6 at a disallowed-scheme failure. -/
theorem c6_witness :
    ∃ e, validate_all emptyFS (.str "pkg") (.str "gopher://x.com") (.str "off") = .error e ∧
      (ValidationError.mk ("Ошибка валидации конфигурации: " ++
        "Недопустимая схема URL: gopher. Допустимы: http, https, ftp, file")).message =
        "Ошибка валидации конфигурации: " ++ e.message := by
  exact (c6_error_wrapping emptyFS (.str "pkg") (.str "gopher://x.com") (.str "off")).1
    ⟨"Ошибка валидации конфигурации: " ++
      "Недопустимая схема URL: gopher. Допустимы: http, https, ftp, file"⟩ rfl

/-- C7 (counterexample): on a successfully constructed file-path
configuration the summary record labels the repository type with the
Russian word "файл", not the English "file" the claim states. -/
theorem c7_counterexample :
    Configuration.init demoFS (.str "pkg") (.str "/tmp/data.txt") (.str "off") =
      .ok ⟨.str "pkg", .str "/tmp/data.txt", .str "off", false⟩ ∧
    (Configuration.to_dict ⟨.str "pkg", .str "/tmp/data.txt", .str "off", false⟩).lookup
      "repository_type" = some (.str "файл") ∧
    PyVal.str "файл" ≠ PyVal.str "file" := by
  refine ⟨rfl, rfl, by decide⟩

/-- C7 (amended): the summary record maps exactly the four field names, with
repository_type equal to "URL" when is_url is true and "файл" when it is
false; the scenario package_name="my-pkg_1.0",
repository="https://example.com/repo", mode="ON" succeeds with the stated
summary (with repository_type "URL"). -/
theorem c7_summary_record :
    (∀ c : Configuration,
      c.to_dict = [("package_name", c.package_name), ("repository", c.repository),
        ("test_repo_mode", c.test_repo_mode),
        ("repository_type", .str (if c.is_url then "URL" else "файл"))] ∧
      c.to_dict.map Prod.fst =
        ["package_name", "repository", "test_repo_mode", "repository_type"]) ∧
    (∀ fs : FileSystem,
      Configuration.init fs (.str "my-pkg_1.0") (.str "https://example.com/repo") (.str "ON") =
        .ok ⟨.str "my-pkg_1.0", .str "https://example.com/repo", .str "on", true⟩ ∧
      Configuration.to_dict
          ⟨.str "my-pkg_1.0", .str "https://example.com/repo", .str "on", true⟩ =
        [("package_name", .str "my-pkg_1.0"),
         ("repository", .str "https://example.com/repo"),
         ("test_repo_mode", .str "on"),
         ("repository_type", .str "URL")]) := by
  constructor
  · intro c
    exact ⟨rfl, rfl⟩
  · intro fs
    exact ⟨init_ok fs _ _ _ true "on" rfl rfl rfl, rfl⟩

/-- Witness for C7 (amended) at a concrete filesystem. -/
theorem c7_witness :
    Configuration.init demoFS (.str "my-pkg_1.0") (.str "https://example.com/repo") (.str "ON") =
      .ok ⟨.str "my-pkg_1.0", .str "https://example.com/repo", .str "on", true⟩ :=
  (c7_summary_record.2 demoFS).1

/-- C8: the checks run in the order package name, repository, mode; the
first failing check determines the wrapped error and the result does not
depend on anything the later checks would consult (in particular, a failing
package name yields the same wrapped PackageNameError on every filesystem).
-/
theorem c8_validation_order :
    ∀ (fs : FileSystem) (pn repo mode : PyVal),
      (∀ e, validate_package_name pn = .error e →
        Configuration.init fs pn repo mode = .error (wrapValidation e)) ∧
      (validate_package_name pn = .ok () →
        ∀ e, validate_repository fs repo = .error e →
          Configuration.init fs pn repo mode = .error (wrapValidation e)) ∧
      (validate_package_name pn = .ok () →
        ∀ b, validate_repository fs repo = .ok b →
          ∀ e, validate_test_repo_mode mode = .error e →
            Configuration.init fs pn repo mode = .error (wrapValidation e)) := by
  intro fs pn repo mode
  exact ⟨fun e h => init_pkg_error fs pn repo mode e h,
    fun hp e h => init_repo_error fs pn repo mode e hp h,
    fun hp b hr e h => init_mode_error fs pn repo mode e b hp hr h⟩

/-- Witness for C8: an empty package name is rejected with the wrapped
PackageNameError on two different filesystems, so the repository
filesystem check is not consulted. -/
theorem c8_witness :
    Configuration.init emptyFS (.str "") (.str "/tmp/data.txt") (.str "off") =
      .error ⟨"Ошибка валидации конфигурации: Имя пакета не может быть пустым"⟩ ∧
    Configuration.init demoFS (.str "") (.str "/tmp/data.txt") (.str "off") =
      .error ⟨"Ошибка валидации конфигурации: Имя пакета не может быть пустым"⟩ := by
  constructor
  · exact (c8_validation_order emptyFS (.str "") (.str "/tmp/data.txt") (.str "off")).1
      (.packageNameError "Имя пакета не может быть пустым") rfl
  · exact (c8_validation_order demoFS (.str "") (.str "/tmp/data.txt") (.str "off")).1
      (.packageNameError "Имя пакета не может быть пустым") rfl

/-- C9: a non-string package_name fails with a PackageNameError, wrapped
into the same ValidationError shape as any other package-name failure. -/
theorem c9_nonstring_package_name :
    ∀ v : PyVal, v.isStr = false →
      ∃ m, validate_package_name v = .error (.packageNameError m) ∧
        ∀ (fs : FileSystem) (repo mode : PyVal),
          Configuration.init fs v repo mode =
            .error ⟨"Ошибка валидации конфигурации: " ++ m⟩ := by
  intro v hv
  have key : ∃ m, validate_package_name v = .error (.packageNameError m) := by
    cases v with
    | str s => simp [PyVal.isStr] at hv
    | int n =>
      by_cases hn : n = 0
      · subst hn
        exact ⟨"Имя пакета не может быть пустым", rfl⟩
      · refine ⟨"Имя пакета должно быть строкой", ?_⟩
        have ht : PyVal.truthy (.int n) = true := by simp [PyVal.truthy, hn]
        simp [validate_package_name, ht]
    | none => exact ⟨"Имя пакета не может быть пустым", rfl⟩
  rcases key with ⟨m, hm⟩
  refine ⟨m, hm, fun fs repo mode => ?_⟩
  exact init_pkg_error fs v repo mode _ hm

/-- Witness for C9 at the integer 7. -/
theorem c9_witness :
    PyVal.isStr (.int 7) = false ∧
    ∃ m, validate_package_name (.int 7) = .error (.packageNameError m) ∧
      ∀ (fs : FileSystem) (repo mode : PyVal),
        Configuration.init fs (.int 7) repo mode =
          .error ⟨"Ошибка валидации конфигурации: " ++ m⟩ :=
  ⟨rfl, c9_nonstring_package_name (.int 7) rfl⟩

/-- C10: on success the stored and reported package_name and repository are
the raw inputs; test_repo_mode is the lowercased input; is_url is the
derived classification of the parsed repository. -/
theorem c10_fields_unchanged :
    ∀ (fs : FileSystem) (pn repo mode : String) (c : Configuration),
      Configuration.init fs (.str pn) (.str repo) (.str mode) = .ok c →
      c.package_name = .str pn ∧ c.repository = .str repo ∧
      c.test_repo_mode = .str (strLower mode) ∧
      (∃ r, urlparse repo = .ok r ∧ c.is_url = classify_is_url r) ∧
      c.to_dict = [("package_name", .str pn), ("repository", .str repo),
        ("test_repo_mode", .str (strLower mode)),
        ("repository_type", .str (if c.is_url then "URL" else "файл"))] := by
  intro fs pn repo mode c h
  rcases init_ok_inv fs (.str pn) (.str repo) (.str mode) c h with ⟨b, m, hp, hr, hm, hc⟩
  have hmm := validate_test_repo_mode_str_ok_inv mode m hm
  rcases validate_repository_ok_inv fs repo b hr with ⟨r, hur, hbr⟩
  subst hc
  refine ⟨rfl, rfl, by rw [hmm.1], ⟨r, hur, hbr⟩, ?_⟩
  simp [Configuration.to_dict, hmm.1]

/-- Witness for C10 at concrete inputs including an uppercase mode. -/
theorem c10_witness :
    Configuration.mk (.str "pkg") (.str "/tmp/data.txt") (.str "on") false =
        ⟨.str "pkg", .str "/tmp/data.txt", .str (strLower "ON"), false⟩ ∧
    (Configuration.mk (.str "pkg") (.str "/tmp/data.txt") (.str "on") false).package_name =
      .str "pkg" := by
  have h := c10_fields_unchanged demoFS "pkg" "/tmp/data.txt" "ON"
    ⟨.str "pkg", .str "/tmp/data.txt", .str "on", false⟩ rfl
  exact ⟨by rw [← h.2.2.1], h.1⟩
